import Mathlib

/-!
Verification development for the forever-websocket repository.

The definitions below are a shallow embedding of the JavaScript source:

* `createReconnectFactory` (src/factories, also inlined in index.mjs):
  the backoff scheduler state machine, embedded as explicit state passing.
  JS numbers on the delay path are embedded as `Rat` (all operations on
  this path — `+`, `*`, `min`, `Math.round` — are exact on the values the
  code manipulates).  `Math.random()` is passed in as an explicit input
  `rand ∈ [0,1)`.  `setTimeout`/`clearTimeout` are embedded as an explicit
  `pendingTimer : Option Rat` field (`some d` = a one-shot timer armed for
  `d` ms is outstanding).
* the `ForeverWebSocket` controller class (`connect`, `send`, `readyState`,
  the `close`-event handler, the listener registry).
-/

namespace ForeverWS

/-! ## Reconnect factory (createReconnectFactory) -/

/-- The backoff strategy: key of the `getNextDelay` dispatch object. -/
inductive Strategy
  | fibonacci
  | exponential
deriving DecidableEq, Repr

/-- The options bag passed to `createReconnectFactory`; `none` marks a field
absent from the JS object (so the destructuring default applies). -/
structure ReconnectOptions where
  strategy : Option Strategy := none
  initialDelay : Option Rat := none
  maxDelay : Option Rat := none
  randomizeDelay : Option Bool := none
  factor : Option Rat := none
deriving DecidableEq, Repr

/-- Resolved configuration after parameter destructuring. -/
structure ReconnectConfig where
  strategy : Strategy
  initialDelay : Rat
  maxDelay : Rat
  randomizeDelay : Bool
  factor : Rat
deriving DecidableEq, Repr

/-- `createReconnectFactory({ strategy = 'fibonacci', initialDelay = 50,
maxDelay = 10000, randomizeDelay = true, factor = 1.5 } = {})` — the
destructuring defaults of the source (note: the code defaults
`randomizeDelay` to `true`). -/
def resolveConfig (o : ReconnectOptions) : ReconnectConfig where
  strategy := o.strategy.getD .fibonacci
  initialDelay := o.initialDelay.getD 50
  maxDelay := o.maxDelay.getD 10000
  randomizeDelay := o.randomizeDelay.getD true
  factor := o.factor.getD (3/2)

/-- Mutable closure state of the factory. -/
structure ReconnectState where
  lastConnectedMts : Option Nat
  isStopped : Bool
  retryNumber : Nat
  previousDelay : Rat
  delay : Rat
  nextDelay : Rat
  /-- `some d` iff a one-shot reconnect timer armed for `d` ms is pending. -/
  pendingTimer : Option Rat
deriving DecidableEq, Repr

/-- Initial closure state: `retryNumber = 0`, `previousDelay = 0`,
`delay = 0`, `nextDelay = initialDelay`, `timeoutId = null`. -/
def initReconnectState (cfg : ReconnectConfig) : ReconnectState where
  lastConnectedMts := none
  isStopped := false
  retryNumber := 0
  previousDelay := 0
  delay := 0
  nextDelay := cfg.initialDelay
  pendingTimer := none

/-- `Math.round` (round half up, as JS does): `⌊q + 1/2⌋`. -/
def jsRound (q : Rat) : Rat := (⌊q + 1/2⌋ : Int)

/-- The `getNextDelay` dispatch object: fibonacci ⇒ `delay + previousDelay`,
exponential ⇒ `delay * factor`. -/
def getNextDelay (cfg : ReconnectConfig) (delay previousDelay : Rat) : Rat :=
  match cfg.strategy with
  | .fibonacci => delay + previousDelay
  | .exponential => delay * cfg.factor

/-- `scheduleNextConnect()`.  `now` is `Date.now()`, `rand` is the
`Math.random()` draw.  Returns the new state together with the
`callbackStartDelay` arguments `(retryNumber + 1, randomizedDelay)`; the
armed one-shot timer is recorded in `pendingTimer`. -/
def scheduleNextConnect (cfg : ReconnectConfig) (now : Nat) (rand : Rat)
    (s : ReconnectState) : ReconnectState × Nat × Rat :=
  let previousDelay := s.delay
  let delay := s.nextDelay
  let clamped := min delay cfg.maxDelay
  let randomizedDelay :=
    if cfg.randomizeDelay then jsRound (clamped * (1 + rand * (1/5))) else clamped
  let state : ReconnectState :=
    { lastConnectedMts := some now
      isStopped := false
      retryNumber := s.retryNumber
      previousDelay := previousDelay
      delay := delay
      nextDelay := getNextDelay cfg delay previousDelay
      pendingTimer := some randomizedDelay }
  (state, s.retryNumber + 1, randomizedDelay)

/-- `reset()`. -/
def ReconnectState.reset (cfg : ReconnectConfig) (_s : ReconnectState) : ReconnectState where
  lastConnectedMts := none
  isStopped := false
  retryNumber := 0
  previousDelay := 0
  delay := 0
  nextDelay := cfg.initialDelay
  pendingTimer := none

/-- `stop()`: `isStopped = true; clearTimeout(timeoutId)`. -/
def ReconnectState.stop (s : ReconnectState) : ReconnectState :=
  { s with isStopped := true, pendingTimer := none }

/-- State after `n` consecutive `scheduleNextConnect` calls; the timestamps
and random draws of the successive calls are given by `now` and `rand`. -/
def iterateSchedule (cfg : ReconnectConfig) (now : Nat → Nat) (rand : Nat → Rat) :
    Nat → ReconnectState
  | 0 => initReconnectState cfg
  | n + 1 => (scheduleNextConnect cfg (now n) (rand n) (iterateSchedule cfg now rand n)).1

/-- The pre-clamp delay of the `n`-th `scheduleNextConnect` call (`n ≥ 1`):
the value of the closure variable `delay` just after `delay = nextDelay`. -/
def preClampDelay (cfg : ReconnectConfig) (now : Nat → Nat) (rand : Nat → Rat)
    (n : Nat) : Rat :=
  (iterateSchedule cfg now rand n).delay

/-- Configuration of the C1 scenario: fibonacci, `initialDelay = 50`,
no jitter, `maxDelay = 10000`. -/
def fibCfg : ReconnectConfig where
  strategy := .fibonacci
  initialDelay := 50
  maxDelay := 10000
  randomizeDelay := false
  factor := 3/2

/-- Reference sequence seeded `(0, 50)`, each later term the sum of the two
preceding ones: `0, 50, 50, 100, 150, 250, 400, …`. -/
def fibSeq : Nat → Rat
  | 0 => 0
  | 1 => 50
  | n + 2 => fibSeq (n + 1) + fibSeq n

/-! Scheduling-triggering events seen by the reconnect factory through the
controller: the WebSocket `close` handler (`#reattachConnectionManagers`)
and the construction-failure branch of `connect()`.  Both run
`if (this.#reconnectManager && !this.#reconnectManager.isStopped())
this.#reconnectManager.scheduleNextConnect()`. -/

/-- A scheduling-triggering event, carrying its `Date.now()` and
`Math.random()` values. -/
inductive SchedEvent
  | closeEvt (now : Nat) (rand : Rat)
  | connectFailEvt (now : Nat) (rand : Rat)
deriving DecidableEq, Repr

/-- Effect of one scheduling-triggering event on the reconnect state
(the manager exists; the controller guard checks `!isStopped()`). -/
def schedEventStep (cfg : ReconnectConfig) (s : ReconnectState) :
    SchedEvent → ReconnectState
  | .closeEvt now rand =>
      if s.isStopped then s else (scheduleNextConnect cfg now rand s).1
  | .connectFailEvt now rand =>
      if s.isStopped then s else (scheduleNextConnect cfg now rand s).1

/-- Run a sequence of scheduling-triggering events. -/
def runSchedEvents (cfg : ReconnectConfig) (evs : List SchedEvent)
    (s : ReconnectState) : ReconnectState :=
  evs.foldl (schedEventStep cfg) s

/-! ## Controller (class ForeverWebSocket): connect / send / readyState

The WebSocket handle is the external Transport boundary: the controller
only reads its `readyState` (`CONNECTING=0, OPEN=1, CLOSING=2, CLOSED=3`)
and delegates `send` to it. -/

/-- `WebSocket.OPEN`. -/
def WS_OPEN : Nat := 1

/-- The underlying WebSocket object, as seen by the controller. -/
structure Handle where
  readyState : Nat
deriving DecidableEq, Repr

/-- JavaScript values passed to `send`, classified by `typeof`.
`binary` stands for Buffer-like binary objects; `obj` for plain objects. -/
inductive JSData
  | str (s : String)
  | num (q : Rat)
  | boolean (b : Bool)
  | undef
  | nullv
  | arr (elems : List JSData)
  | obj (fields : List (String × JSData))
  | binary (bytes : List Nat)

/-- The JS `typeof` operator on the values above.  Note `typeof null`,
`typeof []` and `typeof buffer` are all `"object"`. -/
def jsTypeof : JSData → String
  | .str _ => "string"
  | .num _ => "number"
  | .boolean _ => "boolean"
  | .undef => "undefined"
  | .nullv => "object"
  | .arr _ => "object"
  | .obj _ => "object"
  | .binary _ => "object"

/-! Model of the `JSON.stringify` builtin (Node semantics; a Buffer
stringifies through its `toJSON` as `\x7b"type":"Buffer","data":[…]\x7d`). -/

mutual

/-- `JSON.stringify(data)`. -/
def jsonStringify : JSData → String
  | .str s => "\"" ++ s ++ "\""
  | .num q => toString q
  | .boolean b => if b then "true" else "false"
  | .undef => "null"
  | .nullv => "null"
  | .arr elems => "[" ++ jsonStringifyElems elems ++ "]"
  | .obj fields => "\x7b" ++ jsonStringifyFields fields ++ "\x7d"
  | .binary bytes =>
      "\x7b\"type\":\"Buffer\",\"data\":[" ++
        String.intercalate "," (bytes.map toString) ++ "]\x7d"

/-- Comma-separated encoding of an array body. -/
def jsonStringifyElems : List JSData → String
  | [] => ""
  | [x] => jsonStringify x
  | x :: y :: xs => jsonStringify x ++ "," ++ jsonStringifyElems (y :: xs)

/-- Comma-separated encoding of an object body. -/
def jsonStringifyFields : List (String × JSData) → String
  | [] => ""
  | [(k, v)] => "\"" ++ k ++ "\":" ++ jsonStringify v
  | (k, v) :: y :: xs =>
      "\"" ++ k ++ "\":" ++ jsonStringify v ++ "," ++ jsonStringifyFields (y :: xs)

end

/-- Events the controller `emit`s on its own EventEmitter during the
operations modelled here. -/
inductive Emitted
  | errorEvt (e : Nat)
  | delayEvt (retry : Nat) (d : Rat)
deriving DecidableEq, Repr

/-- Listener record kept in `#listenersWebSocket` (one event name). -/
structure LRec where
  listener : Nat
  onceOpt : Bool
  addListenerMethod : Nat
deriving DecidableEq, Repr

/-- Instance state of `ForeverWebSocket` relevant to the lifecycle
operations: the handle `this.ws`, the reconnect manager closure, whether
the ping / timeout managers are running, the listener registry
`#listenersWebSocket` and the custom handler properties (`onopen`, …). -/
structure ForeverWebSocket where
  ws : Option Handle
  reconnectManager : Option ReconnectState
  pingRunning : Bool
  timeoutRunning : Bool
  listenersWebSocket : List LRec
  customHandlers : List (String × Nat)
deriving DecidableEq, Repr

/-- `#isWebSocketOpen()`: `this.ws?.readyState === WebSocket.OPEN`. -/
def isWebSocketOpen (c : ForeverWebSocket) : Bool :=
  match c.ws with
  | some h => h.readyState = WS_OPEN
  | none => false

/-- `#cleanupWebSocket()`: best-effort detach of all registered listeners
from the discarded handle and close/terminate of it (external effects on
an object about to be dropped), then `this.ws = null`.  The registry is
not modified. -/
def cleanupWebSocket (c : ForeverWebSocket) : ForeverWebSocket :=
  { c with ws := none }

/-- `connect()` of the current implementation.  Construction of the new
WebSocket is the external fallible step; its outcome is the explicit
input `constructResult` (`.error e` = the factory or constructor threw
`e`).  The result is `.ok` exactly when `connect()` itself does not
throw; emitted events are returned in order. -/
def connect (cfg : ReconnectConfig) (now : Nat) (rand : Rat)
    (constructResult : Except Nat Handle) (c : ForeverWebSocket) :
    Except Nat (ForeverWebSocket × List Emitted) :=
  -- Check if the WebSocket is already open
  if isWebSocketOpen c then .ok (c, [])
  else
    -- Cleanup old WebSocket if it exists
    let c1 := if c.ws.isSome then cleanupWebSocket c else c
    -- Stop ping and timeout managers
    let c2 := { c1 with pingRunning := false, timeoutRunning := false }
    match constructResult with
    | .error e =>
        -- catch branch: emit error, null the handle, schedule reconnect
        let c3 := { c2 with ws := none }
        match c3.reconnectManager with
        | some rs =>
            if rs.isStopped then .ok (c3, [.errorEvt e])
            else
              let sched := scheduleNextConnect cfg now rand rs
              .ok ({ c3 with reconnectManager := some sched.1 },
                   [.errorEvt e, .delayEvt sched.2.1 sched.2.2])
        | none => .ok (c3, [.errorEvt e])
    | .ok h =>
        -- success: store handle, reset reconnect manager, reattach
        -- connection managers and listeners on the new handle, assign
        -- custom handlers (effects on the fresh handle)
        let c3 := { c2 with
          ws := some h
          reconnectManager := c2.reconnectManager.map (ReconnectState.reset cfg) }
        .ok (c3, [])

/-- Errors `send` can raise: member access on a null `this.ws`, or the
error the Transport itself raises on a non-open socket. -/
inductive SendErr
  | nullAccess
  | transportNotOpen (rs : Nat)
deriving DecidableEq, Repr

/-- The Transport boundary `ws.send(data)`: transmits on an open socket,
raises its own error otherwise. -/
def wsSend (h : Handle) (d : JSData) : Except SendErr JSData :=
  if h.readyState = WS_OPEN then .ok d else .error (.transportNotOpen h.readyState)

/-- `send(data)`: stringify when `typeof data === 'object'`, then delegate
to `this.ws.send`.  Returns the unchanged instance together with the
transmitted payload or the raised error. -/
def ForeverWebSocket.send (c : ForeverWebSocket) (data : JSData) :
    ForeverWebSocket × Except SendErr JSData :=
  match c.ws with
  | none => (c, .error .nullAccess)
  | some h =>
      if jsTypeof data = "object" then (c, wsSend h (.str (jsonStringify data)))
      else (c, wsSend h data)

/-- The `readyState` getter: `return this.ws?.readyState` (`none` embeds
JS `undefined`). -/
def ForeverWebSocket.readyState (c : ForeverWebSocket) : Option Nat :=
  c.ws.map fun h => h.readyState

end ForeverWS

namespace ForeverWS.Listeners

/-! ## Listener registry and continuity

Embedding of `#registerEventListener`, `#attachEventListener`,
`#reattachEventListeners` and the delivery of one transport event, for a
single observed event name.  Listener callbacks are identified by
naturals.  The handle is the external event target: `addEventListener`
with `\x7bonce: true\x7d` and `once` give fire-once registrations on that
handle; `on` gives a persistent one.  The controller also mirrors each
registration onto its internal EventEmitter (`super.on`/`super.once`), but
that emitter only ever emits the controller's own event names, never the
transport event observed here, so it is not part of this state. -/

/-- `addListenerMethods`: which handle method an attachment uses. -/
inductive AddMethod
  | once
  | on
  | addEventListener
deriving DecidableEq, Repr

/-- Listener record stored in `#listenersWebSocket[eventName]`. -/
structure Rec where
  listener : Nat
  onceOpt : Bool
  addListenerMethod : AddMethod
deriving DecidableEq, Repr

/-- The external WebSocket handle for the observed event name:
`hooks` are the anonymous registry-cleanup callbacks which
`#attachEventListener` adds with `\x7bonce: true\x7d` for `once`
registrations, `attached` the caller listeners attached to the handle
(listener, method, `options.once`). -/
structure WsHandle where
  hooks : List Nat
  attached : List (Nat × AddMethod × Bool)
deriving DecidableEq, Repr

/-- Controller state for the observed event name: the registry, the
current handle (if any) and the log of listener invocations the caller
has observed so far, in order. -/
structure LState where
  listenersWebSocket : List Rec
  ws : Option WsHandle
  fireLog : List Nat
deriving DecidableEq, Repr

/-- `#registerEventListener`: push the record onto the registry. -/
def registerEventListener (r : Rec) (s : LState) : LState :=
  { s with listenersWebSocket := s.listenersWebSocket ++ [r] }

/-- `#attachEventListener`: if a handle exists, first add the
registry-cleanup hook when `options.once`, then attach the listener with
the recorded method. -/
def attachEventListener (r : Rec) (s : LState) : LState :=
  match s.ws with
  | none => s
  | some h =>
      let h1 := if r.onceOpt then { h with hooks := h.hooks ++ [r.listener] } else h
      let h2 := { h1 with attached := h1.attached ++ [(r.listener, r.addListenerMethod, r.onceOpt)] }
      { s with ws := some h2 }

/-- Common body of `on` / `addEventListener` / `once`: register the
record, then attach it to the live handle. -/
def addListener (r : Rec) (s : LState) : LState :=
  attachEventListener r (registerEventListener r s)

/-- `on(eventName, listener, options)`: register then attach. -/
def onListener (l : Nat) (onceOpt : Bool) (s : LState) : LState :=
  addListener ⟨l, onceOpt, .on⟩ s

/-- `once(eventName, listener)`: options become `\x7b…, once: true\x7d`,
register then attach with the `once` method. -/
def onceListener (l : Nat) (s : LState) : LState :=
  addListener ⟨l, true, .once⟩ s

/-- A handle attachment fires only once on its handle when it was made
with `ws.once`, or with `addEventListener` and `\x7bonce: true\x7d`
(`ws.on` ignores the options argument). -/
def onceOnHandle (a : Nat × AddMethod × Bool) : Bool :=
  match a.2.1, a.2.2 with
  | .once, _ => true
  | .addEventListener, o => o
  | .on, _ => false

/-- The handle attachment entry a record produces. -/
def recEntry (r : Rec) : Nat × AddMethod × Bool :=
  (r.listener, r.addListenerMethod, r.onceOpt)

/-- The registry-cleanup hook body: remove the first registry record with
this listener and `options.once` (`findIndex` + `splice`). -/
def removeFirstOnceRec (l : Nat) : List Rec → List Rec
  | [] => []
  | r :: rest =>
      if r.listener = l ∧ r.onceOpt = true then rest
      else r :: removeFirstOnceRec l rest

/-- Delivery of one occurrence of the observed transport event on the
live handle: every cleanup hook fires (each is a fire-once registration,
so all are consumed) removing its registry record; every attached caller
listener fires in attachment order; fire-once attachments are consumed. -/
def fireEvent (s : LState) : LState :=
  match s.ws with
  | none => s
  | some h =>
      { listenersWebSocket := h.hooks.foldl (fun reg l => removeFirstOnceRec l reg) s.listenersWebSocket
        ws := some { hooks := [], attached := h.attached.filter (fun a => ¬ onceOnHandle a) }
        fireLog := s.fireLog ++ h.attached.map (fun a => a.1) }

/-- `#reattachEventListeners()`: replay the whole registry, in order. -/
def reattachEventListeners (s : LState) : LState :=
  s.listenersWebSocket.foldl (fun st r => attachEventListener r st) s

/-- Handle replacement on reconnect: `connect()` discards the old handle,
creates a fresh one and replays the registry onto it. -/
def replaceHandle (s : LState) : LState :=
  reattachEventListeners { s with ws := some ⟨[], []⟩ }

/-- Lifecycle events after registration: a delivery of the observed
transport event, or a reconnect (handle replacement with replay). -/
inductive LEvent
  | fire
  | reconnect
deriving DecidableEq, Repr

/-- One lifecycle step. -/
def lstep (s : LState) : LEvent → LState
  | .fire => fireEvent s
  | .reconnect => replaceHandle s

/-- Run a trace of lifecycle events. -/
def runTrace (tr : List LEvent) (s : LState) : LState :=
  tr.foldl lstep s

/-- A freshly connected controller with an empty registry. -/
def freshState : LState := ⟨[], some ⟨[], []⟩, []⟩

end ForeverWS.Listeners

namespace ForeverWS.Legacy

/-! ## Own event names (index.mjs variant of `on` / `addEventListener`)

In this variant a registration whose event name is one of the
controller's own (`ownEventNames`) is forwarded to `super.on` and the
method returns at once; all other names are unshifted into
`_listenersWebSocket` and attached to the live handle when present. -/

/-- `ownEventNames`. -/
def ownEventNames : List String :=
  ["connecting", "delay", "timeout", "newListener", "removeListener", "reconnected"]

/-- Registry record: listener and `options.once`. -/
structure LegacyRec where
  listener : Nat
  onceOpt : Bool
deriving DecidableEq, Repr

/-- The live handle of this variant: cleanup hooks and attachments per
event name. -/
structure LegacyHandle where
  hooks : List (String × Nat)
  attached : List (String × Nat × Bool)
deriving DecidableEq, Repr

/-- Controller state: internal EventEmitter listeners (`super.on`), the
registry `_listenersWebSocket` (each event's list kept in its JS array
order, new records unshifted to the front), and the live handle. -/
structure LegacyCtrl where
  emitter : List (String × Nat)
  listenersWebSocket : List (String × List LegacyRec)
  ws : Option LegacyHandle
deriving DecidableEq, Repr

/-- `_listenersWebSocket[eventName].unshift(record)`, creating the array
when absent. -/
def registryUnshift (ev : String) (r : LegacyRec) :
    List (String × List LegacyRec) → List (String × List LegacyRec)
  | [] => [(ev, [r])]
  | (name, rs) :: rest =>
      if name = ev then (name, r :: rs) :: rest
      else (name, rs) :: registryUnshift ev r rest

/-- Attach to the live handle: cleanup hook first when `options.once`,
then the listener itself. -/
def legacyAttach (ev : String) (l : Nat) (onceOpt : Bool)
    (c : LegacyCtrl) : LegacyCtrl :=
  match c.ws with
  | none => c
  | some h =>
      let h1 := if onceOpt then { h with hooks := h.hooks ++ [(ev, l)] } else h
      { c with ws := some { h1 with attached := h1.attached ++ [(ev, l, onceOpt)] } }

/-- `on(eventName, listener, options)` of the index.mjs variant. -/
def legacyOn (ev : String) (l : Nat) (onceOpt : Bool) (c : LegacyCtrl) : LegacyCtrl :=
  if ev ∈ ownEventNames then
    { c with emitter := c.emitter ++ [(ev, l)] }
  else
    legacyAttach ev l onceOpt
      { c with listenersWebSocket := registryUnshift ev ⟨l, onceOpt⟩ c.listenersWebSocket }

/-- `addEventListener(eventName, listener, options)`: same own-name guard,
then the same registration steps (the attachment method differs only on
the external handle). -/
def legacyAddEventListener (ev : String) (l : Nat) (onceOpt : Bool)
    (c : LegacyCtrl) : LegacyCtrl :=
  if ev ∈ ownEventNames then
    { c with emitter := c.emitter ++ [(ev, l)] }
  else
    legacyAttach ev l onceOpt
      { c with listenersWebSocket := registryUnshift ev ⟨l, onceOpt⟩ c.listenersWebSocket }

/-- `once(eventName, listener, options)`:
`this.on(eventName, listener, \x7b…options, once: true\x7d)`. -/
def legacyOnce (ev : String) (l : Nat) (c : LegacyCtrl) : LegacyCtrl :=
  legacyOn ev l true c

end ForeverWS.Legacy

namespace ForeverWS

/-! ## Helper lemmas -/

/-- After `n` fibonacci `scheduleNextConnect` calls (C1 configuration),
`delay` holds `fibSeq n` and `nextDelay` holds `fibSeq (n + 1)`. -/
lemma iterateSchedule_fib_delay (now : Nat → Nat) (rand : Nat → Rat) (n : Nat) :
    (iterateSchedule fibCfg now rand n).delay = fibSeq n ∧
    (iterateSchedule fibCfg now rand n).nextDelay = fibSeq (n + 1) := by
  induction n with
  | zero => exact ⟨rfl, rfl⟩
  | succ n ih =>
      obtain ⟨hd, hn⟩ := ih
      refine ⟨?_, ?_⟩
      · simpa [iterateSchedule, scheduleNextConnect] using hn
      · show getNextDelay fibCfg (iterateSchedule fibCfg now rand n).nextDelay
            (iterateSchedule fibCfg now rand n).delay = fibSeq (n + 2)
        rw [hn, hd, getNextDelay]
        rfl

/-- A stopped reconnect state absorbs scheduling-triggering events. -/
lemma schedEventStep_stopped (cfg : ReconnectConfig) (s : ReconnectState)
    (h : s.isStopped = true) (e : SchedEvent) : schedEventStep cfg s e = s := by
  cases e <;> simp [schedEventStep, h]

/-- A stopped reconnect state absorbs whole event sequences. -/
lemma runSchedEvents_stopped (cfg : ReconnectConfig) (evs : List SchedEvent)
    (s : ReconnectState) (h : s.isStopped = true) :
    runSchedEvents cfg evs s = s := by
  induction evs with
  | nil => rfl
  | cons e evs ih =>
      show runSchedEvents cfg evs (schedEventStep cfg s e) = s
      rw [schedEventStep_stopped cfg s h e]
      exact ih

/-! ## Claim theorems: reconnect scheduler -/

/-- C1: with the fibonacci strategy, `initialDelay = 50`, no jitter and
`maxDelay = 10000`, the pre-clamp delays of consecutive
`scheduleNextConnect` calls are `50, 50, 100, 150, 250, 400, …`: the
`n`-th delay is the `n`-th term of the sequence seeded `(0, 50)` in which
every later term is the sum of the two preceding ones. -/
theorem reconnect_fibonacci_preclamp_delays (now : Nat → Nat) (rand : Nat → Rat)
    (n : Nat) :
    preClampDelay fibCfg now rand (n + 1) = fibSeq (n + 1) ∧
    fibSeq 0 = 0 ∧ fibSeq 1 = 50 ∧
    fibSeq (n + 2) = fibSeq (n + 1) + fibSeq n ∧
    preClampDelay fibCfg now rand (n + 3) =
      preClampDelay fibCfg now rand (n + 2) + preClampDelay fibCfg now rand (n + 1) ∧
    preClampDelay fibCfg now rand 1 = 50 ∧
    preClampDelay fibCfg now rand 2 = 50 ∧
    preClampDelay fibCfg now rand 3 = 100 ∧
    preClampDelay fibCfg now rand 4 = 150 ∧
    preClampDelay fibCfg now rand 5 = 250 ∧
    preClampDelay fibCfg now rand 6 = 400 := by
  have key : ∀ m, preClampDelay fibCfg now rand m = fibSeq m :=
    fun m => (iterateSchedule_fib_delay now rand m).1
  refine ⟨key (n + 1), rfl, rfl, rfl, ?_, ?_, ?_, ?_, ?_, ?_, ?_⟩
  · rw [key (n + 3), key (n + 2), key (n + 1)]; rfl
  all_goals rw [key]; norm_num [fibSeq]

/-- C2 (code evaluated at the failing input): when `createReconnectFactory`
receives an options object without `randomizeDelay`, the destructuring
default makes `randomizeDelay = true`, so a `scheduleNextConnect` call with
`Math.random() = 0.5` arms the timer for `round(50 × 1.1) = 55` ms, not the
unperturbed `min(currentDelay, maxDelay) = 50` ms the documentation
promises. -/
theorem randomizeDelay_defaults_true_not_false :
    (resolveConfig {}).randomizeDelay = true ∧
    (scheduleNextConnect (resolveConfig {}) 0 (1/2)
        (initReconnectState (resolveConfig {}))).1.pendingTimer = some 55 ∧
    min (initReconnectState (resolveConfig {})).nextDelay
        (resolveConfig {}).maxDelay = 50 ∧
    (55 : Rat) ≠ 50 := by
  refine ⟨rfl, ?_, ?_, by norm_num⟩
  · show some (jsRound (min (50 : Rat) 10000 * (1 + 1/2 * (1/5)))) = some 55
    norm_num [jsRound]
  · norm_num [initReconnectState, resolveConfig]

/-- C3: `stop()` cancels the pending timer, suppresses every subsequent
scheduling-triggering event (WebSocket `close`, failed connect) so no
timer is armed or fires until `reset()`, leaves `retryNumber` unchanged,
and is idempotent; after `reset()` scheduling is possible again. -/
theorem stop_suppresses_future_scheduling (cfg : ReconnectConfig)
    (s : ReconnectState) (evs : List SchedEvent) :
    (ReconnectState.stop s).pendingTimer = none ∧
    runSchedEvents cfg evs (ReconnectState.stop s) = ReconnectState.stop s ∧
    (runSchedEvents cfg evs (ReconnectState.stop s)).pendingTimer = none ∧
    (ReconnectState.stop s).retryNumber = s.retryNumber ∧
    ReconnectState.stop (ReconnectState.stop s) = ReconnectState.stop s ∧
    (ReconnectState.reset cfg (ReconnectState.stop s)).isStopped = false ∧
    ∀ now rand,
      ((schedEventStep cfg (ReconnectState.reset cfg (ReconnectState.stop s))
          (SchedEvent.closeEvt now rand)).pendingTimer).isSome = true := by
  have habs : runSchedEvents cfg evs (ReconnectState.stop s) = ReconnectState.stop s :=
    runSchedEvents_stopped cfg evs _ rfl
  refine ⟨?_, habs, ?_, ?_, ?_, ?_, ?_⟩
  · rfl
  · rw [habs]; rfl
  · rfl
  · rfl
  · rfl
  · intro now rand
    simp [schedEventStep, ReconnectState.reset, scheduleNextConnect]

/-! ## Claim theorems: controller lifecycle -/

/-- C4: when Transport construction inside `connect()` throws, `connect()`
catches the failure (result `.ok`), emits an `error` event, sets the
handle to absent, and — when a reconnect manager exists and is not
stopped — arms the manager's next attempt. -/
theorem connect_construction_failure_recovered (cfg : ReconnectConfig) (now : Nat)
    (rand : Rat) (e : Nat) (c : ForeverWebSocket)
    (h : isWebSocketOpen c = false) :
    ∃ c2 emits, connect cfg now rand (.error e) c = .ok (c2, emits) ∧
      Emitted.errorEvt e ∈ emits ∧
      c2.ws = none ∧
      (∀ rs, c.reconnectManager = some rs → rs.isStopped = false →
        ∃ rs2, c2.reconnectManager = some rs2 ∧ rs2.pendingTimer.isSome = true) := by
  rcases hrm : c.reconnectManager with _ | rs
  · have hc : connect cfg now rand (.error e) c =
        .ok ({ c with ws := none, pingRunning := false, timeoutRunning := false },
             [.errorEvt e]) := by
      by_cases hws : c.ws.isSome <;>
        simp [connect, h, cleanupWebSocket, hws, hrm]
    refine ⟨_, _, hc, by simp, rfl, fun rs3 hrs3 _hns => ?_⟩
    exact Option.noConfusion hrs3
  · by_cases hstop : rs.isStopped
    · have hc : connect cfg now rand (.error e) c =
          .ok ({ c with ws := none, pingRunning := false, timeoutRunning := false },
               [.errorEvt e]) := by
        by_cases hws : c.ws.isSome <;>
          simp [connect, h, cleanupWebSocket, hws, hrm, hstop]
      refine ⟨_, _, hc, by simp, rfl, fun rs3 hrs3 hns => ?_⟩
      injection hrs3 with hh
      subst hh
      rw [hstop] at hns
      exact Bool.noConfusion hns
    · have hc : connect cfg now rand (.error e) c =
          .ok ({ c with
                  ws := none
                  pingRunning := false
                  timeoutRunning := false
                  reconnectManager := some (scheduleNextConnect cfg now rand rs).1 },
               [.errorEvt e,
                .delayEvt (scheduleNextConnect cfg now rand rs).2.1
                  (scheduleNextConnect cfg now rand rs).2.2]) := by
        by_cases hws : c.ws.isSome <;>
          simp [connect, h, cleanupWebSocket, hws, hrm, hstop]
      refine ⟨_, _, hc, by simp, rfl, fun rs3 hrs3 _hns => ?_⟩
      injection hrs3 with hh
      subst hh
      exact ⟨(scheduleNextConnect cfg now rand rs).1, rfl, by simp [scheduleNextConnect]⟩

/-- Witness for C4: a concrete disconnected controller with an active
reconnect manager; a failed construction is caught, the handle is absent
and a timer is armed. -/
theorem connect_construction_failure_recovered_witness :
    ∃ c2 emits,
      connect fibCfg 0 0 (.error 3)
          ⟨none, some (initReconnectState fibCfg), false, false, [], []⟩ = .ok (c2, emits) ∧
      Emitted.errorEvt 3 ∈ emits ∧
      c2.ws = none ∧
      (∀ rs, (⟨none, some (initReconnectState fibCfg), false, false, [], []⟩ :
          ForeverWebSocket).reconnectManager = some rs → rs.isStopped = false →
        ∃ rs2, c2.reconnectManager = some rs2 ∧ rs2.pendingTimer.isSome = true) :=
  connect_construction_failure_recovered fibCfg 0 0 3
    ⟨none, some (initReconnectState fibCfg), false, false, [], []⟩ rfl

/-- C5: when the current handle reports `readyState` OPEN, `connect()` is
a no-op: the instance is returned unchanged (same handle, same reconnect
manager, ping, timeout, listener registry and custom handlers) and
nothing is emitted. -/
theorem connect_noop_when_open (cfg : ReconnectConfig) (now : Nat) (rand : Rat)
    (r : Except Nat Handle) (c : ForeverWebSocket)
    (h : ForeverWebSocket.readyState c = some WS_OPEN) :
    connect cfg now rand r c = .ok (c, []) := by
  have hopen : isWebSocketOpen c = true := by
    cases hws : c.ws with
    | none => rw [ForeverWebSocket.readyState, hws] at h; simp at h
    | some h0 =>
        rw [ForeverWebSocket.readyState, hws] at h
        simp at h
        simp [isWebSocketOpen, hws, h]
  simp [connect, hopen]

/-- Witness for C5: a concrete controller whose handle is OPEN; `connect`
returns it unchanged. -/
theorem connect_noop_when_open_witness :
    connect fibCfg 0 0 (.error 7)
        ⟨some ⟨WS_OPEN⟩, some (initReconnectState fibCfg), true, true, [], []⟩ =
      .ok (⟨some ⟨WS_OPEN⟩, some (initReconnectState fibCfg), true, true, [], []⟩, []) :=
  connect_noop_when_open fibCfg 0 0 (.error 7)
    ⟨some ⟨WS_OPEN⟩, some (initReconnectState fibCfg), true, true, [], []⟩ rfl

/-- C9: the `readyState` getter returns `undefined` (embedded `none`) when
no handle exists, and the handle's own `readyState` otherwise — it never
throws (it is a total function of the instance). -/
theorem readyState_undefined_when_no_handle (c : ForeverWebSocket) :
    (c.ws = none → ForeverWebSocket.readyState c = none) ∧
    (∀ h, c.ws = some h → ForeverWebSocket.readyState c = some h.readyState) := by
  constructor
  · intro h
    rw [ForeverWebSocket.readyState, h]
    rfl
  · intro h hw
    rw [ForeverWebSocket.readyState, hw]
    rfl

/-- Witness for C9: concrete instances without and with a handle. -/
theorem readyState_undefined_when_no_handle_witness :
    ForeverWebSocket.readyState ⟨none, none, false, false, [], []⟩ = none ∧
    ForeverWebSocket.readyState ⟨some ⟨2⟩, none, false, false, [], []⟩ = some 2 :=
  ⟨(readyState_undefined_when_no_handle ⟨none, none, false, false, [], []⟩).1 rfl,
   (readyState_undefined_when_no_handle ⟨some ⟨2⟩, none, false, false, [], []⟩).2 ⟨2⟩ rfl⟩

/-! ## Claim theorems: send -/

/-- C8 counterexample: a binary payload (a Buffer, `typeof` `"object"`) is
NOT passed through unchanged on an open handle — `send` runs it through
`JSON.stringify` and transmits the resulting text, because the code's
test is `typeof data === 'object'`, which is true for binary objects. -/
theorem send_binary_payload_serialized :
    (ForeverWebSocket.send ⟨some ⟨WS_OPEN⟩, none, false, false, [], []⟩
        (.binary [1, 2, 3])).2 =
      .ok (.str (jsonStringify (.binary [1, 2, 3]))) ∧
    (ForeverWebSocket.send ⟨some ⟨WS_OPEN⟩, none, false, false, [], []⟩
        (.binary [1, 2, 3])).2 ≠ .ok (.binary [1, 2, 3]) := by
  constructor
  · rfl
  · intro hcontra
    have h0 : (ForeverWebSocket.send ⟨some ⟨WS_OPEN⟩, none, false, false, [], []⟩
        (.binary [1, 2, 3])).2 = .ok (.str (jsonStringify (.binary [1, 2, 3]))) := rfl
    rw [h0] at hcontra
    injection hcontra with hc2
    exact JSData.noConfusion hc2

/-- C8 (amended): `send` serializes every payload whose JS `typeof` is
`"object"` — plain objects and arrays, but also `null` and binary objects
such as Buffers — to JSON text before delegating to the handle; payloads
of any other `typeof` (strings, numbers, booleans, `undefined`) pass
through unchanged; with no handle it fails by accessing `send` on `null`,
and on a non-open handle it fails with the Transport's own error; the
instance is never modified (no local buffering). -/
theorem send_delegates_serializing_objects (c : ForeverWebSocket) (data : JSData) :
    (ForeverWebSocket.send c data).1 = c ∧
    (∀ h, c.ws = some h → h.readyState = WS_OPEN → jsTypeof data = "object" →
        (ForeverWebSocket.send c data).2 = .ok (.str (jsonStringify data))) ∧
    (∀ h, c.ws = some h → h.readyState = WS_OPEN → jsTypeof data ≠ "object" →
        (ForeverWebSocket.send c data).2 = .ok data) ∧
    (c.ws = none → (ForeverWebSocket.send c data).2 = .error .nullAccess) ∧
    (∀ h, c.ws = some h → h.readyState ≠ WS_OPEN →
        (ForeverWebSocket.send c data).2 = .error (.transportNotOpen h.readyState)) := by
  refine ⟨?_, ?_, ?_, ?_, ?_⟩
  · cases hws : c.ws with
    | none => simp [ForeverWebSocket.send, hws]
    | some h0 =>
        by_cases hty : jsTypeof data = "object" <;>
          simp [ForeverWebSocket.send, hws, hty]
  · intro h hws hrs hty
    simp [ForeverWebSocket.send, hws, hty, wsSend, hrs]
  · intro h hws hrs hty
    simp [ForeverWebSocket.send, hws, hty, wsSend, hrs]
  · intro hws
    simp [ForeverWebSocket.send, hws]
  · intro h hws hrs
    by_cases hty : jsTypeof data = "object" <;>
      simp [ForeverWebSocket.send, hws, hty, wsSend, hrs]

/-- Witness for the amended C8: a string passes through on an open handle,
an object is stringified, and both failure modes occur. -/
theorem send_delegates_serializing_objects_witness :
    (ForeverWebSocket.send ⟨some ⟨WS_OPEN⟩, none, false, false, [], []⟩
        (.str "hi")).2 = .ok (.str "hi") ∧
    (ForeverWebSocket.send ⟨some ⟨WS_OPEN⟩, none, false, false, [], []⟩
        (.obj [("a", .num 1)])).2 =
      .ok (.str (jsonStringify (.obj [("a", .num 1)]))) ∧
    (ForeverWebSocket.send ⟨none, none, false, false, [], []⟩
        (.str "hi")).2 = .error .nullAccess ∧
    (ForeverWebSocket.send ⟨some ⟨0⟩, none, false, false, [], []⟩
        (.str "hi")).2 = .error (.transportNotOpen 0) :=
  ⟨(send_delegates_serializing_objects ⟨some ⟨WS_OPEN⟩, none, false, false, [], []⟩
      (.str "hi")).2.2.1 ⟨WS_OPEN⟩ rfl rfl (by decide),
   (send_delegates_serializing_objects ⟨some ⟨WS_OPEN⟩, none, false, false, [], []⟩
      (.obj [("a", .num 1)])).2.1 ⟨WS_OPEN⟩ rfl rfl rfl,
   (send_delegates_serializing_objects ⟨none, none, false, false, [], []⟩
      (.str "hi")).2.2.2.1 rfl,
   (send_delegates_serializing_objects ⟨some ⟨0⟩, none, false, false, [], []⟩
      (.str "hi")).2.2.2.2 ⟨0⟩ rfl (by decide)⟩

end ForeverWS

namespace ForeverWS.Listeners

/-! ## Helper lemmas: listener registry -/

/-- `#attachEventListener` never modifies the registry. -/
lemma attachEventListener_registry (r : Rec) (s : LState) :
    (attachEventListener r s).listenersWebSocket = s.listenersWebSocket := by
  cases hws : s.ws <;> simp [attachEventListener, hws]

/-- `#attachEventListener` appends exactly one attachment entry to the
live handle. -/
lemma attachEventListener_ws (r : Rec) (s : LState) (h : WsHandle)
    (hws : s.ws = some h) :
    ∃ hooks2, (attachEventListener r s).ws = some ⟨hooks2, h.attached ++ [recEntry r]⟩ := by
  cases ho : r.onceOpt <;>
    simp [attachEventListener, hws, ho, recEntry]

/-- Attaching a list of records appends their entries, in list order. -/
lemma foldl_attach (l : List Rec) (s : LState) (h : WsHandle) (hws : s.ws = some h) :
    (l.foldl (fun st r => attachEventListener r st) s).listenersWebSocket
        = s.listenersWebSocket ∧
    ∃ hooks2, (l.foldl (fun st r => attachEventListener r st) s).ws
        = some ⟨hooks2, h.attached ++ l.map recEntry⟩ := by
  induction l generalizing s h with
  | nil => exact ⟨rfl, h.hooks, by simp [hws]⟩
  | cons r l ih =>
      obtain ⟨hooks1, hws1⟩ := attachEventListener_ws r s h hws
      obtain ⟨hreg, hooks2, hws2⟩ := ih (attachEventListener r s) _ hws1
      refine ⟨?_, hooks2, ?_⟩
      · rw [List.foldl_cons, hreg, attachEventListener_registry]
      · rw [List.foldl_cons, hws2]
        simp

/-- Registering a list of records appends them to the registry and
attaches their entries in list order. -/
lemma foldl_addListener (l : List Rec) (s : LState) (h : WsHandle) (hws : s.ws = some h) :
    (l.foldl (fun st r => addListener r st) s).listenersWebSocket
        = s.listenersWebSocket ++ l ∧
    ∃ hooks2, (l.foldl (fun st r => addListener r st) s).ws
        = some ⟨hooks2, h.attached ++ l.map recEntry⟩ := by
  induction l generalizing s h with
  | nil => exact ⟨by simp, h.hooks, by simp [hws]⟩
  | cons r l ih =>
      obtain ⟨hooks1, hws1⟩ := attachEventListener_ws r (registerEventListener r s) h hws
      obtain ⟨hreg, hooks2, hws2⟩ := ih (addListener r s) _ hws1
      refine ⟨?_, hooks2, ?_⟩
      · rw [List.foldl_cons, hreg]
        show (addListener r s).listenersWebSocket ++ l = _
        rw [addListener, attachEventListener_registry, registerEventListener]
        simp
      · rw [List.foldl_cons, hws2]
        simp

/-- Handle replacement keeps the registry and replays it onto the fresh
handle in registry order. -/
lemma replaceHandle_spec (s : LState) :
    (replaceHandle s).listenersWebSocket = s.listenersWebSocket ∧
    ∃ hooks2, (replaceHandle s).ws = some ⟨hooks2, s.listenersWebSocket.map recEntry⟩ := by
  have h := foldl_attach s.listenersWebSocket
      { s with ws := some ⟨[], []⟩ } ⟨[], []⟩ rfl
  simpa [replaceHandle, reattachEventListeners] using h

/-- Iterated handle replacement preserves the registry; the final handle
carries exactly the registry's entries in order. -/
lemma iterate_replaceHandle_spec (regs : List Rec) (k : Nat) (s : LState)
    (hreg : s.listenersWebSocket = regs) :
    (replaceHandle^[k + 1] s).listenersWebSocket = regs ∧
    ∃ hooks2, (replaceHandle^[k + 1] s).ws = some ⟨hooks2, regs.map recEntry⟩ := by
  induction k generalizing s with
  | zero =>
      have h := replaceHandle_spec s
      rw [hreg] at h
      simpa using h
  | succ k ih =>
      rw [Function.iterate_succ_apply]
      exact ih (replaceHandle s) ((replaceHandle_spec s).1.trans hreg)

/-- After any sequence of events the state of an initially fresh, empty
controller that fired all of its (zero) listeners stays fixed. -/
lemma runTrace_consumed (tr : List LEvent) (log : List Nat) :
    runTrace tr ⟨[], some ⟨[], []⟩, log⟩ = ⟨[], some ⟨[], []⟩, log⟩ := by
  induction tr with
  | nil => rfl
  | cons e tr ih =>
      have hstep : lstep ⟨[], some ⟨[], []⟩, log⟩ e = ⟨[], some ⟨[], []⟩, log⟩ := by
        cases e
        · simp [lstep, fireEvent]
        · simp [lstep, replaceHandle, reattachEventListeners]
      show runTrace tr (lstep _ e) = _
      rw [hstep]
      exact ih

/-- From the state right after `once(f)` on a fresh connection, `f` is
appended to the fire log exactly once if the trace delivers the event at
least once (reconnects replay the still-registered record; the first
delivery consumes both the handle attachment and the registry record). -/
lemma runTrace_armed (f : Nat) (tr : List LEvent) (log : List Nat) :
    (runTrace tr ⟨[⟨f, true, .once⟩], some ⟨[f], [(f, .once, true)]⟩, log⟩).fireLog
      = log ++ (if LEvent.fire ∈ tr then [f] else []) := by
  induction tr generalizing log with
  | nil => simp [runTrace]
  | cons e tr ih =>
      cases e with
      | fire =>
          have hstep : lstep ⟨[⟨f, true, .once⟩], some ⟨[f], [(f, .once, true)]⟩, log⟩ .fire
              = ⟨[], some ⟨[], []⟩, log ++ [f]⟩ := by
            simp [lstep, fireEvent, removeFirstOnceRec, onceOnHandle]
          show (runTrace tr (lstep _ _)).fireLog = _
          rw [hstep, runTrace_consumed tr (log ++ [f])]
          simp
      | reconnect =>
          have hstep : lstep ⟨[⟨f, true, .once⟩], some ⟨[f], [(f, .once, true)]⟩, log⟩ .reconnect
              = ⟨[⟨f, true, .once⟩], some ⟨[f], [(f, .once, true)]⟩, log⟩ := by
            simp [lstep, replaceHandle, reattachEventListeners, attachEventListener]
          show (runTrace tr (lstep _ _)).fireLog = _
          rw [hstep, ih]
          simp

/-! ## Claim theorems: listener continuity -/

/-- C6: after any sequence of registrations for the observed event name,
followed by any number of handle replacements, the registry equals the
registration sequence and the live handle's attachments list the
listeners in their original registration (insertion) order. -/
theorem registry_replay_insertion_order (regs : List Rec) (k : Nat) :
    (replaceHandle^[k] (regs.foldl (fun st r => addListener r st) freshState)).listenersWebSocket
        = regs ∧
    ((replaceHandle^[k] (regs.foldl (fun st r => addListener r st) freshState)).ws).map
        (fun h => h.attached.map fun a => a.1)
      = some (regs.map fun r => r.listener) := by
  obtain ⟨hreg0, hooks0, hws0⟩ := foldl_addListener regs freshState ⟨[], []⟩ rfl
  cases k with
  | zero =>
      refine ⟨by simpa using hreg0, ?_⟩
      rw [Function.iterate_zero_apply, hws0]
      simp [recEntry, List.map_map, Function.comp]
  | succ k =>
      obtain ⟨hreg, hooks2, hws⟩ :=
        iterate_replaceHandle_spec regs k
          (regs.foldl (fun st r => addListener r st) freshState) (by simpa using hreg0)
      refine ⟨hreg, ?_⟩
      rw [hws]
      simp [recEntry, List.map_map, Function.comp]

/-- C7: a listener registered via `once` on a freshly connected controller
fires exactly once across the controller's whole lifetime when the event
is delivered at least once, and never more than once, for every
interleaving of event deliveries and reconnects (handle replacements with
registry replay). -/
theorem once_listener_fires_at_most_once (f : Nat) (tr : List LEvent) :
    ((runTrace tr (onceListener f freshState)).fireLog.count f
        = if LEvent.fire ∈ tr then 1 else 0) ∧
    (runTrace tr (onceListener f freshState)).fireLog.count f ≤ 1 := by
  have h0 : onceListener f freshState
      = ⟨[⟨f, true, .once⟩], some ⟨[f], [(f, .once, true)]⟩, []⟩ := rfl
  rw [h0]
  rw [runTrace_armed f tr []]
  constructor
  · split <;> simp
  · split <;> simp

end ForeverWS.Listeners

namespace ForeverWS.Legacy

/-! ## Claim theorems: own event names (index.mjs variant) -/

/-- C10: registering one of the controller's own event names through
`on`, `addEventListener` or `once` only appends to the internal
EventEmitter: the listener registry `_listenersWebSocket` and the live
handle are untouched, so handle replacement cannot affect such
listeners. -/
theorem own_event_names_internal_emitter_only (ev : String) (l : Nat) (opts : Bool)
    (c : LegacyCtrl) (h : ev ∈ ownEventNames) :
    legacyOn ev l opts c = { c with emitter := c.emitter ++ [(ev, l)] } ∧
    legacyAddEventListener ev l opts c = { c with emitter := c.emitter ++ [(ev, l)] } ∧
    legacyOnce ev l c = { c with emitter := c.emitter ++ [(ev, l)] } ∧
    (legacyOn ev l opts c).listenersWebSocket = c.listenersWebSocket ∧
    (legacyOn ev l opts c).ws = c.ws := by
  refine ⟨?_, ?_, ?_, ?_, ?_⟩ <;>
    simp [legacyOn, legacyAddEventListener, legacyOnce, h]

/-- Witness for C10: registering a `connecting` listener on a connected
controller touches only the internal emitter. -/
theorem own_event_names_internal_emitter_only_witness :
    legacyOn "connecting" 4 false ⟨[], [], some ⟨[], []⟩⟩ =
      { emitter := [("connecting", 4)], listenersWebSocket := [], ws := some ⟨[], []⟩ } ∧
    legacyAddEventListener "connecting" 4 false ⟨[], [], some ⟨[], []⟩⟩ =
      { emitter := [("connecting", 4)], listenersWebSocket := [], ws := some ⟨[], []⟩ } ∧
    legacyOnce "connecting" 4 ⟨[], [], some ⟨[], []⟩⟩ =
      { emitter := [("connecting", 4)], listenersWebSocket := [], ws := some ⟨[], []⟩ } ∧
    (legacyOn "connecting" 4 false ⟨[], [], some ⟨[], []⟩⟩).listenersWebSocket = [] ∧
    (legacyOn "connecting" 4 false ⟨[], [], some ⟨[], []⟩⟩).ws = some ⟨[], []⟩ :=
  own_event_names_internal_emitter_only "connecting" 4 false ⟨[], [], some ⟨[], []⟩⟩
    (by decide)

end ForeverWS.Legacy
